import Mathlib

/-!
Verification development for the setup script src/Temmp.py.

The script is a flat sequence of notebook setup statements: it installs a
global warnings filter, imports numpy, pandas, matplotlib (selecting the
"Agg" backend), matplotlib.pyplot, seaborn (setting a visualization style),
three sklearn helpers, runs the IPython magic directive "%matplotlib inline"
(which, per IPython semantics, activates the notebook inline backend),
assigns the constant RANDOM_STATE = 42, and prints a confirmation line.

We embed the script shallowly: each source statement becomes a constructor
of an abstract-syntax type, and an interpreter threads an explicit session
state (warning filters, active matplotlib backend, seaborn settings, global
bindings, and a chronological trace of observable events). Imports are
fallible: the environment says which libraries are available, and a missing
library makes the import statement raise an ImportError that aborts the run.
A library import may emit warnings; a warning is displayed (written to
standard error) only if the first matching warnings filter does not say
"ignore", mirroring the warnings module filter-chain semantics.
-/

namespace TempSetup

/-- The modules imported by the script (warnings is the stdlib module;
the rest are third-party libraries). -/
inductive Lib where
  | warnings
  | numpy
  | pandas
  | matplotlib
  | matplotlibPyplot
  | seaborn
  | sklearnModelSelection
  | sklearnLinearModel
  | sklearnMetrics
deriving DecidableEq, Repr, Fintype

/-- Actions a warnings filter can prescribe, as in the warnings module. -/
inductive WAction where
  | ignore
  | defaultAct
  | errorAct
  | always
  | moduleAct
  | once
deriving DecidableEq, Repr

/-- One entry of the warnings filter chain. The script only ever installs
a filter matching every category, so a filter is an action together with
an optional category restriction (none matches every category). -/
structure WFilter where
  action : WAction
  category : Option String
deriving DecidableEq, Repr

/-- The filter pushed by warnings.filterwarnings("ignore"): action ignore,
matching every warning category. -/
def ignoreAllFilter : WFilter :=
  { action := WAction.ignore, category := none }

/-- Does a filter entry match a warning of the given category? -/
def filterMatches (f : WFilter) (c : String) : Bool :=
  match f.category with
  | none => true
  | some c0 => c0 = c

/-- First filter of the chain matching the category, as the warnings module
scans its filter list front to back. -/
def firstMatching : List WFilter → String → Option WFilter
  | [], _ => none
  | f :: fs, c => if filterMatches f c then some f else firstMatching fs c

/-- A warning of category c is displayed unless the first matching filter
says ignore (no matching filter means it is shown). -/
def shouldDisplay (fs : List WFilter) (c : String) : Bool :=
  match firstMatching fs c with
  | none => true
  | some f => f.action != WAction.ignore

/-- Observable boundary events of an execution. The script only ever
produces stdoutWrite events (and stderrWrite events for any displayed
warning); the file, network and argv event kinds exist so that the
frame claim "only standard output is touched" is a statement about the
trace, not about the shape of the event type. -/
inductive Event where
  | stdoutWrite (s : String)
  | stderrWrite (s : String)
  | fileRead (path : String)
  | fileWrite (path : String)
  | networkCall (url : String)
  | readArgv
deriving DecidableEq, Repr

/-- Values bound in the session globals: the module objects bound by
the import statements, the callables bound by from-imports, and the one
integer constant the script assigns. -/
inductive PyValue where
  | intVal (n : Int)
  | moduleVal (m : Lib)
  | funcVal (name : String)
deriving DecidableEq, Repr

/-- The seaborn settings recorded by sns.set(style=..., palette=...,
color_codes=...). -/
structure SnsSettings where
  style : String
  palette : String
  colorCodes : Bool
deriving DecidableEq, Repr

/-- The execution environment: which libraries can be imported, which
warnings each library emits while being imported, the warnings filters
already installed when the script starts, and the matplotlib backend that
is active before the script configures one. -/
structure Env where
  available : Lib → Bool
  importEmits : Lib → List String
  initialFilters : List WFilter
  defaultBackend : String

/-- The session state threaded through the script. -/
structure PyState where
  env : Env
  filters : List WFilter
  backend : String
  snsSettings : Option SnsSettings
  globals : List (String × PyValue)
  imported : List Lib
  trace : List Event

/-- The one kind of exception the script itself can raise: a failed
module import. It propagates unmodified (no try / except anywhere). -/
inductive PyError where
  | importError (m : Lib)
deriving DecidableEq, Repr

/-- The statements of src/Temmp.py, one constructor per statement kind. -/
inductive Stmt where
  | importAs (m : Lib) (binding : String)
  | fromImport (m : Lib) (names : List String)
  | filterwarningsIgnore
  | matplotlibUse (backend : String)
  | switchBackend (backend : String)
  | snsSet (style : String) (palette : String) (colorCodes : Bool)
  | magicMatplotlibInline
  | assign (name : String) (value : Int)
  | printStr (s : String)
deriving DecidableEq, Repr

/-- Emit one warning: it is appended to the trace as a standard-error
write only when the current filter chain says it should be displayed. -/
def warn (c : String) (st : PyState) : PyState :=
  if shouldDisplay st.filters c then
    { st with trace := st.trace ++ [Event.stderrWrite c] }
  else st

/-- Emit a list of warnings in order. -/
def warnMany : List String → PyState → PyState
  | [], st => st
  | c :: cs, st => warnMany cs (warn c st)

/-- The backend selected by the IPython magic "%matplotlib inline". -/
def inlineBackend : String := "module://matplotlib_inline.backend_inline"

/-- Small-step semantics of one statement. Imports check availability,
emit the warnings the library emits while loading, and bind the name;
a missing library raises ImportError. The configuration calls update the
corresponding state component. print writes its argument plus a newline
to standard output. -/
def execStmt (s : Stmt) (st : PyState) : PyState × Option PyError :=
  match s with
  | Stmt.importAs m b =>
      if st.env.available m then
        let st1 := warnMany (st.env.importEmits m) st
        ({ st1 with globals := (b, PyValue.moduleVal m) :: st1.globals,
                    imported := m :: st1.imported }, none)
      else (st, some (PyError.importError m))
  | Stmt.fromImport m ns =>
      if st.env.available m then
        let st1 := warnMany (st.env.importEmits m) st
        ({ st1 with globals := ns.map (fun n => (n, PyValue.funcVal n)) ++ st1.globals,
                    imported := m :: st1.imported }, none)
      else (st, some (PyError.importError m))
  | Stmt.filterwarningsIgnore =>
      ({ st with filters := ignoreAllFilter :: st.filters }, none)
  | Stmt.matplotlibUse b => ({ st with backend := b }, none)
  | Stmt.switchBackend b => ({ st with backend := b }, none)
  | Stmt.snsSet sty pal cc =>
      ({ st with snsSettings := some { style := sty, palette := pal, colorCodes := cc } }, none)
  | Stmt.magicMatplotlibInline => ({ st with backend := inlineBackend }, none)
  | Stmt.assign n v => ({ st with globals := (n, PyValue.intVal v) :: st.globals }, none)
  | Stmt.printStr s => ({ st with trace := st.trace ++ [Event.stdoutWrite (s ++ "\n")] }, none)

/-- Run a statement list top to bottom; the first error aborts the run
and is returned together with the state reached so far. -/
def runProg : List Stmt → PyState → PyState × Option PyError
  | [], st => (st, none)
  | s :: rest, st =>
      match execStmt s st with
      | (st1, none) => runProg rest st1
      | (st1, some e) => (st1, some e)

/-- src/Temmp.py, statement by statement, in source order (lines 2 to 25):
the warnings import; warnings.filterwarnings("ignore"); the numpy (as np),
pandas (as pd) and matplotlib imports; matplotlib.use("Agg"); the
matplotlib.pyplot import (as plt); plt.switch_backend("Agg"); the seaborn
(as sns) import; sns.set(style="whitegrid", palette="muted",
color_codes=True); the three sklearn from-imports; %matplotlib inline;
RANDOM_STATE = 42; print("Libraries imported and backend configured."). -/
def script : List Stmt :=
  [ Stmt.importAs Lib.warnings "warnings",
    Stmt.filterwarningsIgnore,
    Stmt.importAs Lib.numpy "np",
    Stmt.importAs Lib.pandas "pd",
    Stmt.importAs Lib.matplotlib "matplotlib",
    Stmt.matplotlibUse "Agg",
    Stmt.importAs Lib.matplotlibPyplot "plt",
    Stmt.switchBackend "Agg",
    Stmt.importAs Lib.seaborn "sns",
    Stmt.snsSet "whitegrid" "muted" true,
    Stmt.fromImport Lib.sklearnModelSelection ["train_test_split"],
    Stmt.fromImport Lib.sklearnLinearModel ["LinearRegression"],
    Stmt.fromImport Lib.sklearnMetrics ["r2_score", "mean_squared_error"],
    Stmt.magicMatplotlibInline,
    Stmt.assign "RANDOM_STATE" 42,
    Stmt.printStr "Libraries imported and backend configured." ]

/-- The state a fresh session starts from. -/
def initState (env : Env) : PyState :=
  { env := env, filters := env.initialFilters, backend := env.defaultBackend,
    snsSettings := none, globals := [], imported := [], trace := [] }

/-- Execute src/Temmp.py in the given environment. -/
def runScript (env : Env) : PyState × Option PyError :=
  runProg script (initState env)

/-- The standard-output lines of a trace, in order. -/
def stdoutOf : List Event → List String
  | [] => []
  | Event.stdoutWrite s :: es => s :: stdoutOf es
  | _ :: es => stdoutOf es

/-- The confirmation line the script prints, newline included. -/
def confirmationLine : String := "Libraries imported and backend configured.\n"

/-- The name and value assigned, for assignment statements. -/
def assignOf : Stmt → Option (String × Int)
  | Stmt.assign n v => some (n, v)
  | _ => none

/-- The global names a statement reads (the attribute calls read the
module binding they are invoked on; literals read nothing). -/
def readNames : Stmt → List String
  | Stmt.importAs _ _ => []
  | Stmt.fromImport _ _ => []
  | Stmt.filterwarningsIgnore => ["warnings"]
  | Stmt.matplotlibUse _ => ["matplotlib"]
  | Stmt.switchBackend _ => ["plt"]
  | Stmt.snsSet _ _ _ => ["sns"]
  | Stmt.magicMatplotlibInline => []
  | Stmt.assign _ _ => []
  | Stmt.printStr _ => []

/-- Is the statement an import of a third-party library (anything other
than the stdlib warnings module)? -/
def isThirdPartyImport : Stmt → Bool
  | Stmt.importAs m _ => m != Lib.warnings
  | Stmt.fromImport _ _ => true
  | _ => false

/-- Is the event a write to standard output? -/
def isStdoutEvent : Event → Bool
  | Event.stdoutWrite _ => true
  | _ => false

/-- Is the event a write to standard error (a displayed warning)? -/
def isStderrEvent : Event → Bool
  | Event.stderrWrite _ => true
  | _ => false

/-- Every warning category is suppressed by the filter chain. -/
def SuppressAll (fs : List WFilter) : Prop :=
  ∀ c : String, shouldDisplay fs c = false

/-- Big-step execution relation for statement lists: the run consumes the
statements in order and stops at the first error. runProg computes
exactly this relation, and the relation is deterministic. -/
inductive ExecProg : List Stmt → PyState → PyState × Option PyError → Prop where
  | nil (st : PyState) : ExecProg [] st (st, none)
  | consOk {s : Stmt} {rest : List Stmt} {st st1 : PyState} {out : PyState × Option PyError} :
      execStmt s st = (st1, none) → ExecProg rest st1 out → ExecProg (s :: rest) st out
  | consErr {s : Stmt} {rest : List Stmt} {st st1 : PyState} {e : PyError} :
      execStmt s st = (st1, some e) → ExecProg (s :: rest) st (st1, some e)

/-- An environment in which every library is available, no import emits a
warning, no filters are pre-installed, and the default backend is TkAgg. -/
def sampleEnv : Env :=
  { available := fun _ => true, importEmits := fun _ => [],
    initialFilters := [], defaultBackend := "TkAgg" }

/-- sampleEnv with numpy missing. -/
def missingEnv : Env :=
  { available := fun l => l != Lib.numpy, importEmits := fun _ => [],
    initialFilters := [], defaultBackend := "TkAgg" }

/-- Position of each library in the script's import order. -/
def importIndex : Lib → Nat
  | Lib.warnings => 0
  | Lib.numpy => 1
  | Lib.pandas => 2
  | Lib.matplotlib => 3
  | Lib.matplotlibPyplot => 4
  | Lib.seaborn => 5
  | Lib.sklearnModelSelection => 6
  | Lib.sklearnLinearModel => 7
  | Lib.sklearnMetrics => 8

/-- The global bindings a successful run leaves behind, most recent first:
one integer constant and the bindings created by the imports. -/
def finalGlobals : List (String × PyValue) :=
  [ ("RANDOM_STATE", PyValue.intVal 42),
    ("r2_score", PyValue.funcVal "r2_score"),
    ("mean_squared_error", PyValue.funcVal "mean_squared_error"),
    ("LinearRegression", PyValue.funcVal "LinearRegression"),
    ("train_test_split", PyValue.funcVal "train_test_split"),
    ("sns", PyValue.moduleVal Lib.seaborn),
    ("plt", PyValue.moduleVal Lib.matplotlibPyplot),
    ("matplotlib", PyValue.moduleVal Lib.matplotlib),
    ("pd", PyValue.moduleVal Lib.pandas),
    ("np", PyValue.moduleVal Lib.numpy),
    ("warnings", PyValue.moduleVal Lib.warnings) ]

/-- Keep only the integer-valued bindings. -/
def intBindings (gs : List (String × PyValue)) : List (String × PyValue) :=
  gs.filter (fun p => match p.2 with
    | PyValue.intVal _ => true
    | _ => false)

/-- A warning leaves the filter chain unchanged. -/
@[simp]
theorem warn_filters (c : String) (st : PyState) : (warn c st).filters = st.filters := by
  unfold warn; split <;> rfl

/-- A warning leaves the backend unchanged. -/
@[simp]
theorem warn_backend (c : String) (st : PyState) : (warn c st).backend = st.backend := by
  unfold warn; split <;> rfl

/-- A warning leaves the seaborn settings unchanged. -/
@[simp]
theorem warn_sns (c : String) (st : PyState) : (warn c st).snsSettings = st.snsSettings := by
  unfold warn; split <;> rfl

/-- A warning leaves the globals unchanged. -/
@[simp]
theorem warn_globals (c : String) (st : PyState) : (warn c st).globals = st.globals := by
  unfold warn; split <;> rfl

/-- A warning leaves the imported-modules list unchanged. -/
@[simp]
theorem warn_imported (c : String) (st : PyState) : (warn c st).imported = st.imported := by
  unfold warn; split <;> rfl

/-- A warning leaves the environment unchanged. -/
@[simp]
theorem warn_env (c : String) (st : PyState) : (warn c st).env = st.env := by
  unfold warn; split <;> rfl

/-- stdoutOf distributes over trace concatenation. -/
@[simp]
theorem stdoutOf_append (t u : List Event) :
    stdoutOf (t ++ u) = stdoutOf t ++ stdoutOf u := by
  induction t with
  | nil => rfl
  | cons e es ih => cases e <;> simp [stdoutOf, ih]

/-- A warning never contributes to standard output. -/
@[simp]
theorem warn_stdout (c : String) (st : PyState) :
    stdoutOf (warn c st).trace = stdoutOf st.trace := by
  unfold warn; split <;> simp [stdoutOf]

@[simp]
theorem warnMany_filters (cs : List String) : ∀ st : PyState,
    (warnMany cs st).filters = st.filters := by
  induction cs with
  | nil => intro st; rfl
  | cons c cs ih => intro st; rw [warnMany, ih, warn_filters]

@[simp]
theorem warnMany_backend (cs : List String) : ∀ st : PyState,
    (warnMany cs st).backend = st.backend := by
  induction cs with
  | nil => intro st; rfl
  | cons c cs ih => intro st; rw [warnMany, ih, warn_backend]

@[simp]
theorem warnMany_sns (cs : List String) : ∀ st : PyState,
    (warnMany cs st).snsSettings = st.snsSettings := by
  induction cs with
  | nil => intro st; rfl
  | cons c cs ih => intro st; rw [warnMany, ih, warn_sns]

@[simp]
theorem warnMany_globals (cs : List String) : ∀ st : PyState,
    (warnMany cs st).globals = st.globals := by
  induction cs with
  | nil => intro st; rfl
  | cons c cs ih => intro st; rw [warnMany, ih, warn_globals]

@[simp]
theorem warnMany_imported (cs : List String) : ∀ st : PyState,
    (warnMany cs st).imported = st.imported := by
  induction cs with
  | nil => intro st; rfl
  | cons c cs ih => intro st; rw [warnMany, ih, warn_imported]

@[simp]
theorem warnMany_env (cs : List String) : ∀ st : PyState,
    (warnMany cs st).env = st.env := by
  induction cs with
  | nil => intro st; rfl
  | cons c cs ih => intro st; rw [warnMany, ih, warn_env]

/-- Warnings never contribute to standard output. -/
@[simp]
theorem warnMany_stdout (cs : List String) : ∀ st : PyState,
    stdoutOf (warnMany cs st).trace = stdoutOf st.trace := by
  induction cs with
  | nil => intro st; rfl
  | cons c cs ih => intro st; rw [warnMany, ih, warn_stdout]

/-- The filter pushed by filterwarnings("ignore") suppresses every
category, whatever filters sit below it. -/
theorem shouldDisplay_ignoreAll (fs : List WFilter) (c : String) :
    shouldDisplay (ignoreAllFilter :: fs) c = false := by
  simp [shouldDisplay, firstMatching, filterMatches, ignoreAllFilter]

/-- Under a suppressing filter chain, a warning is a no-op. -/
theorem warn_suppressed {st : PyState} (h : SuppressAll st.filters) (c : String) :
    warn c st = st := by
  unfold warn; rw [h c]; simp

/-- Under a suppressing filter chain, emitting any warnings is a no-op. -/
theorem warnMany_suppressed {st : PyState} (h : SuppressAll st.filters) (cs : List String) :
    warnMany cs st = st := by
  induction cs with
  | nil => rfl
  | cons c cs ih => rw [warnMany, warn_suppressed h c, ih]

/-- runProg computes the big-step relation. -/
theorem execProg_run (p : List Stmt) : ∀ st : PyState, ExecProg p st (runProg p st) := by
  induction p with
  | nil => intro st; exact ExecProg.nil st
  | cons s rest ih =>
      intro st
      rcases hx : execStmt s st with ⟨st1, oerr⟩
      cases oerr with
      | none =>
          have : runProg (s :: rest) st = runProg rest st1 := by
            rw [runProg, hx]
          rw [this]
          exact ExecProg.consOk hx (ih st1)
      | some e =>
          have : runProg (s :: rest) st = (st1, some e) := by
            rw [runProg, hx]
          rw [this]
          exact ExecProg.consErr hx

/-- The big-step relation is deterministic. -/
theorem execProg_det {p : List Stmt} {st : PyState} {o1 o2 : PyState × Option PyError}
    (h1 : ExecProg p st o1) (h2 : ExecProg p st o2) : o1 = o2 := by
  induction h1 generalizing o2 with
  | nil st =>
      cases h2 with
      | nil => rfl
  | consOk hx _ ih =>
      cases h2 with
      | consOk hx2 hrest2 =>
          rw [hx] at hx2
          injection hx2 with hst _
          subst hst
          exact ih hrest2
      | consErr hx2 =>
          rw [hx] at hx2
          injection hx2 with _ hbad
          exact absurd hbad (by simp)
  | consErr hx =>
      cases h2 with
      | consOk hx2 _ =>
          rw [hx] at hx2
          injection hx2 with _ hbad
          exact absurd hbad.symm (by simp)
      | consErr hx2 =>
          rw [hx] at hx2
          injection hx2 with hst he
          injection he with he
          rw [hst, he]

/-- Under a suppressing filter chain, one statement extends the trace only
with standard-output writes, and the chain keeps suppressing. -/
theorem execStmt_ext (s : Stmt) (st : PyState) (h : SuppressAll st.filters) :
    ∃ ext : List Event, (execStmt s st).1.trace = st.trace ++ ext ∧
      ext.all isStdoutEvent = true ∧ SuppressAll (execStmt s st).1.filters := by
  cases s with
  | importAs m b =>
      by_cases hav : st.env.available m = true
      · exact ⟨[], by simp [execStmt, hav, warnMany_suppressed h], rfl,
          by simpa [execStmt, hav, warnMany_suppressed h] using h⟩
      · exact ⟨[], by simp [execStmt, hav], rfl, by simpa [execStmt, hav] using h⟩
  | fromImport m ns =>
      by_cases hav : st.env.available m = true
      · exact ⟨[], by simp [execStmt, hav, warnMany_suppressed h], rfl,
          by simpa [execStmt, hav, warnMany_suppressed h] using h⟩
      · exact ⟨[], by simp [execStmt, hav], rfl, by simpa [execStmt, hav] using h⟩
  | filterwarningsIgnore =>
      exact ⟨[], by simp [execStmt], rfl,
        fun c => by simpa [execStmt] using shouldDisplay_ignoreAll st.filters c⟩
  | matplotlibUse b => exact ⟨[], by simp [execStmt], rfl, by simpa [execStmt] using h⟩
  | switchBackend b => exact ⟨[], by simp [execStmt], rfl, by simpa [execStmt] using h⟩
  | snsSet sty pal cc => exact ⟨[], by simp [execStmt], rfl, by simpa [execStmt] using h⟩
  | magicMatplotlibInline => exact ⟨[], by simp [execStmt], rfl, by simpa [execStmt] using h⟩
  | assign n v => exact ⟨[], by simp [execStmt], rfl, by simpa [execStmt] using h⟩
  | printStr s => exact ⟨[Event.stdoutWrite (s ++ "\n")], by simp [execStmt], rfl,
      by simpa [execStmt] using h⟩

/-- Under a suppressing filter chain, a whole run extends the trace only
with standard-output writes. -/
theorem runProg_ext (p : List Stmt) : ∀ st : PyState, SuppressAll st.filters →
    ∃ ext : List Event, (runProg p st).1.trace = st.trace ++ ext ∧
      ext.all isStdoutEvent = true := by
  induction p with
  | nil => intro st _; exact ⟨[], by simp [runProg], rfl⟩
  | cons s rest ih =>
      intro st h
      obtain ⟨e1, ht1, ha1, hf1⟩ := execStmt_ext s st h
      rcases hx : execStmt s st with ⟨st1, oerr⟩
      rw [hx] at ht1 hf1
      cases oerr with
      | none =>
          have hrun : runProg (s :: rest) st = runProg rest st1 := by rw [runProg, hx]
          obtain ⟨e2, ht2, ha2⟩ := ih st1 hf1
          refine ⟨e1 ++ e2, ?_, ?_⟩
          · rw [hrun, ht2, ht1]
            exact List.append_assoc st.trace e1 e2
          · simp only [List.all_append, ha1, ha2, Bool.and_self]
      | some e =>
          have hrun : runProg (s :: rest) st = (st1, some e) := by rw [runProg, hx]
          exact ⟨e1, by rw [hrun]; exact ht1, ha1⟩

/-- Master evaluation of the successful run: with every library available,
the run raises nothing, prints exactly the confirmation line, leaves the
inline backend active, leaves the ignore-all filter on top of whatever
filters were installed, and records the seaborn settings. -/
theorem runScript_success (env : Env) (h : ∀ l : Lib, env.available l = true) :
    (runScript env).2 = none ∧
    stdoutOf (runScript env).1.trace = [confirmationLine] ∧
    (runScript env).1.backend = inlineBackend ∧
    (runScript env).1.filters = ignoreAllFilter :: env.initialFilters ∧
    (runScript env).1.snsSettings =
      some { style := "whitegrid", palette := "muted", colorCodes := true } ∧
    (runScript env).1.globals = finalGlobals := by
  simp [runScript, script, runProg, execStmt, initState, h, confirmationLine, stdoutOf,
    finalGlobals]

/-- Master evaluation of a failing run: when the first unavailable library
in import order is l, the run aborts with ImportError l and standard
output stays empty. -/
theorem runScript_failure (env : Env) (l : Lib)
    (hl : env.available l = false)
    (hfirst : ∀ m : Lib, importIndex m < importIndex l → env.available m = true) :
    (runScript env).2 = some (PyError.importError l) ∧
    stdoutOf (runScript env).1.trace = [] := by
  have h0 : importIndex Lib.warnings = 0 := rfl
  cases l with
  | warnings =>
      simp [runScript, script, runProg, execStmt, initState, hl, stdoutOf]
  | numpy =>
      have hw := hfirst Lib.warnings (by decide)
      simp [runScript, script, runProg, execStmt, initState, hw, hl, stdoutOf]
  | pandas =>
      have hw := hfirst Lib.warnings (by decide)
      have hn := hfirst Lib.numpy (by decide)
      simp [runScript, script, runProg, execStmt, initState, hw, hn, hl, stdoutOf]
  | matplotlib =>
      have hw := hfirst Lib.warnings (by decide)
      have hn := hfirst Lib.numpy (by decide)
      have hp := hfirst Lib.pandas (by decide)
      simp [runScript, script, runProg, execStmt, initState, hw, hn, hp, hl, stdoutOf]
  | matplotlibPyplot =>
      have hw := hfirst Lib.warnings (by decide)
      have hn := hfirst Lib.numpy (by decide)
      have hp := hfirst Lib.pandas (by decide)
      have hm := hfirst Lib.matplotlib (by decide)
      simp [runScript, script, runProg, execStmt, initState, hw, hn, hp, hm, hl, stdoutOf]
  | seaborn =>
      have hw := hfirst Lib.warnings (by decide)
      have hn := hfirst Lib.numpy (by decide)
      have hp := hfirst Lib.pandas (by decide)
      have hm := hfirst Lib.matplotlib (by decide)
      have hq := hfirst Lib.matplotlibPyplot (by decide)
      simp [runScript, script, runProg, execStmt, initState, hw, hn, hp, hm, hq, hl, stdoutOf]
  | sklearnModelSelection =>
      have hw := hfirst Lib.warnings (by decide)
      have hn := hfirst Lib.numpy (by decide)
      have hp := hfirst Lib.pandas (by decide)
      have hm := hfirst Lib.matplotlib (by decide)
      have hq := hfirst Lib.matplotlibPyplot (by decide)
      have hs := hfirst Lib.seaborn (by decide)
      simp [runScript, script, runProg, execStmt, initState, hw, hn, hp, hm, hq, hs, hl,
        stdoutOf]
  | sklearnLinearModel =>
      have hw := hfirst Lib.warnings (by decide)
      have hn := hfirst Lib.numpy (by decide)
      have hp := hfirst Lib.pandas (by decide)
      have hm := hfirst Lib.matplotlib (by decide)
      have hq := hfirst Lib.matplotlibPyplot (by decide)
      have hs := hfirst Lib.seaborn (by decide)
      have hk1 := hfirst Lib.sklearnModelSelection (by decide)
      simp [runScript, script, runProg, execStmt, initState, hw, hn, hp, hm, hq, hs, hk1,
        hl, stdoutOf]
  | sklearnMetrics =>
      have hw := hfirst Lib.warnings (by decide)
      have hn := hfirst Lib.numpy (by decide)
      have hp := hfirst Lib.pandas (by decide)
      have hm := hfirst Lib.matplotlib (by decide)
      have hq := hfirst Lib.matplotlibPyplot (by decide)
      have hs := hfirst Lib.seaborn (by decide)
      have hk1 := hfirst Lib.sklearnModelSelection (by decide)
      have hk2 := hfirst Lib.sklearnLinearModel (by decide)
      simp [runScript, script, runProg, execStmt, initState, hw, hn, hp, hm, hq, hs, hk1,
        hk2, hl, stdoutOf]

/-- Whatever libraries are available and whatever warnings the third-party
libraries emit on load, the whole trace of a run is standard-output writes
only: the ignore-all filter is installed before any third-party import, so
every later warning is suppressed (the stdlib warnings module itself emits
none while being imported). -/
theorem runScript_trace_all (env : Env) (hw : env.importEmits Lib.warnings = []) :
    ((runScript env).1.trace).all isStdoutEvent = true := by
  by_cases hav : env.available Lib.warnings = true
  · have hrw : runScript env = runProg (script.drop 2)
        { env := env, filters := ignoreAllFilter :: env.initialFilters,
          backend := env.defaultBackend, snsSettings := none,
          globals := [("warnings", PyValue.moduleVal Lib.warnings)],
          imported := [Lib.warnings], trace := [] } := by
      simp [runScript, script, runProg, execStmt, initState, hav, hw, warnMany]
    have hsup : SuppressAll (ignoreAllFilter :: env.initialFilters) :=
      fun c => shouldDisplay_ignoreAll env.initialFilters c
    obtain ⟨ext, htr, hall⟩ := runProg_ext (script.drop 2)
      { env := env, filters := ignoreAllFilter :: env.initialFilters,
        backend := env.defaultBackend, snsSettings := none,
        globals := [("warnings", PyValue.moduleVal Lib.warnings)],
        imported := [Lib.warnings], trace := [] } hsup
    rw [hrw, htr]
    simpa using hall
  · simp [runScript, script, runProg, execStmt, initState, hav]

/-- C1: with every required library available, executing the script raises
no error and writes exactly the confirmation line
"Libraries imported and backend configured." plus a newline to standard
output. -/
theorem c1_run_succeeds_and_prints (env : Env) (h : ∀ l : Lib, env.available l = true) :
    (runScript env).2 = none ∧
    stdoutOf (runScript env).1.trace = [confirmationLine] :=
  ⟨(runScript_success env h).1, (runScript_success env h).2.1⟩

/-- Witness for C1 at a concrete environment with every library available. -/
theorem c1_run_succeeds_and_prints_witness :
    (∀ l : Lib, sampleEnv.available l = true) ∧
    ((runScript sampleEnv).2 = none ∧
      stdoutOf (runScript sampleEnv).1.trace = [confirmationLine]) :=
  ⟨fun _ => rfl, c1_run_succeeds_and_prints sampleEnv (fun _ => rfl)⟩

/-- C2: whatever libraries are available, every event in the trace of a run
is a write to standard output: the script performs no file reads or writes,
no network calls, no argv reads, and displays no warning (the stdlib
warnings module emits no warnings while being imported, which the
hypothesis records). -/
theorem c2_only_stdout_effects (env : Env) (hw : env.importEmits Lib.warnings = []) :
    ((runScript env).1.trace).all isStdoutEvent = true :=
  runScript_trace_all env hw

/-- Witness for C2 at a concrete environment. -/
theorem c2_only_stdout_effects_witness :
    sampleEnv.importEmits Lib.warnings = [] ∧
    ((runScript sampleEnv).1.trace).all isStdoutEvent = true :=
  ⟨rfl, c2_only_stdout_effects sampleEnv rfl⟩

/-- C3: if the first unavailable library in import order is l, the run
aborts with exactly ImportError l, propagated unmodified (there is no
try / except in the script), and the confirmation line is never printed. -/
theorem c3_import_failure_propagates (env : Env) (l : Lib)
    (hl : env.available l = false)
    (hfirst : ∀ m : Lib, importIndex m < importIndex l → env.available m = true) :
    (runScript env).2 = some (PyError.importError l) ∧
    confirmationLine ∉ stdoutOf (runScript env).1.trace := by
  obtain ⟨h1, h2⟩ := runScript_failure env l hl hfirst
  refine ⟨h1, ?_⟩
  rw [h2]
  exact List.not_mem_nil _

/-- Witness for C3 at a concrete environment missing numpy. -/
theorem c3_import_failure_propagates_witness :
    missingEnv.available Lib.numpy = false ∧
    (∀ m : Lib, importIndex m < importIndex Lib.numpy → missingEnv.available m = true) ∧
    ((runScript missingEnv).2 = some (PyError.importError Lib.numpy) ∧
      confirmationLine ∉ stdoutOf (runScript missingEnv).1.trace) :=
  ⟨rfl, by decide, c3_import_failure_propagates missingEnv Lib.numpy rfl (by decide)⟩

/-- C4 as stated is false: the run does set the backend to Agg twice, but
the later IPython magic "%matplotlib inline" selects the notebook inline
backend, so after a successful run the active backend is not Agg. -/
theorem c4_backend_counterexample :
    (runScript sampleEnv).2 = none ∧
    (runScript sampleEnv).1.backend = inlineBackend ∧
    (runScript sampleEnv).1.backend ≠ "Agg" := by
  refine ⟨rfl, rfl, ?_⟩
  decide

/-- C4 amended: matplotlib.use("Agg") precedes the pyplot import, which
precedes plt.switch_backend("Agg"); right after the switch_backend call
the active backend is Agg; but the "%matplotlib inline" magic runs later,
so the backend a successful run leaves active is the notebook inline
backend, not Agg. -/
theorem c4_backend_amended (env : Env) (h : ∀ l : Lib, env.available l = true) :
    script[5]? = some (Stmt.matplotlibUse "Agg") ∧
    script[6]? = some (Stmt.importAs Lib.matplotlibPyplot "plt") ∧
    script[7]? = some (Stmt.switchBackend "Agg") ∧
    script[13]? = some Stmt.magicMatplotlibInline ∧
    (runProg (script.take 8) (initState env)).1.backend = "Agg" ∧
    (runScript env).1.backend = inlineBackend := by
  refine ⟨rfl, rfl, rfl, rfl, ?_, (runScript_success env h).2.2.1⟩
  simp [script, runProg, execStmt, initState, h]

/-- Witness for the amended C4 at a concrete environment. -/
theorem c4_backend_amended_witness :
    (∀ l : Lib, sampleEnv.available l = true) ∧
    (script[5]? = some (Stmt.matplotlibUse "Agg") ∧
      script[6]? = some (Stmt.importAs Lib.matplotlibPyplot "plt") ∧
      script[7]? = some (Stmt.switchBackend "Agg") ∧
      script[13]? = some Stmt.magicMatplotlibInline ∧
      (runProg (script.take 8) (initState sampleEnv)).1.backend = "Agg" ∧
      (runScript sampleEnv).1.backend = inlineBackend) :=
  ⟨fun _ => rfl, c4_backend_amended sampleEnv (fun _ => rfl)⟩

/-- C5: a successful run changes the filter chain only by pushing the
ignore-all filter on top of the pre-existing filters, and afterwards every
warning category whatsoever is suppressed rather than displayed. -/
theorem c5_all_warnings_suppressed (env : Env) (h : ∀ l : Lib, env.available l = true) :
    (runScript env).1.filters = ignoreAllFilter :: env.initialFilters ∧
    ∀ c : String, shouldDisplay (runScript env).1.filters c = false := by
  have hf := (runScript_success env h).2.2.2.1
  refine ⟨hf, fun c => ?_⟩
  rw [hf]
  exact shouldDisplay_ignoreAll env.initialFilters c

/-- Witness for C5 at a concrete environment. -/
theorem c5_all_warnings_suppressed_witness :
    (∀ l : Lib, sampleEnv.available l = true) ∧
    ((runScript sampleEnv).1.filters = ignoreAllFilter :: sampleEnv.initialFilters ∧
      ∀ c : String, shouldDisplay (runScript sampleEnv).1.filters c = false) :=
  ⟨fun _ => rfl, c5_all_warnings_suppressed sampleEnv (fun _ => rfl)⟩

/-- C6: the script contains exactly one assignment statement, binding
RANDOM_STATE to 42, and a successful run leaves exactly one non-import
(integer) binding in the globals, namely RANDOM_STATE = 42; every other
global binding is a module or a callable created by an import. -/
theorem c6_single_own_binding :
    script.filterMap assignOf = [("RANDOM_STATE", (42 : Int))] ∧
    ∀ env : Env, (∀ l : Lib, env.available l = true) →
      intBindings (runScript env).1.globals = [("RANDOM_STATE", PyValue.intVal 42)] := by
  refine ⟨by decide, fun env h => ?_⟩
  rw [(runScript_success env h).2.2.2.2.2]
  decide

/-- Witness for C6 at a concrete environment. -/
theorem c6_single_own_binding_witness :
    (∀ l : Lib, sampleEnv.available l = true) ∧
    intBindings (runScript sampleEnv).1.globals = [("RANDOM_STATE", PyValue.intVal 42)] :=
  ⟨fun _ => rfl, (c6_single_own_binding).2 sampleEnv (fun _ => rfl)⟩

/-- C7: execution is deterministic and sequential: any two runs of the
script from the same initial environment reach the same outcome, and in
particular produce identical standard output. -/
theorem c7_deterministic_execution (env : Env) (o1 o2 : PyState × Option PyError)
    (h1 : ExecProg script (initState env) o1) (h2 : ExecProg script (initState env) o2) :
    o1 = o2 ∧ stdoutOf o1.1.trace = stdoutOf o2.1.trace := by
  have heq := execProg_det h1 h2
  exact ⟨heq, by rw [heq]⟩

/-- Witness for C7: two (syntactically identical) derivations of a concrete
run, compared through the theorem. -/
theorem c7_deterministic_execution_witness :
    ExecProg script (initState sampleEnv) (runScript sampleEnv) ∧
    (runScript sampleEnv = runScript sampleEnv ∧
      stdoutOf (runScript sampleEnv).1.trace = stdoutOf (runScript sampleEnv).1.trace) :=
  ⟨execProg_run script (initState sampleEnv),
    c7_deterministic_execution sampleEnv (runScript sampleEnv) (runScript sampleEnv)
      (execProg_run script (initState sampleEnv))
      (execProg_run script (initState sampleEnv))⟩

/-- C8: a successful run records the seaborn settings
style whitegrid, palette muted, color codes enabled. -/
theorem c8_sns_style (env : Env) (h : ∀ l : Lib, env.available l = true) :
    (runScript env).1.snsSettings =
      some { style := "whitegrid", palette := "muted", colorCodes := true } :=
  (runScript_success env h).2.2.2.2.1

/-- Witness for C8 at a concrete environment. -/
theorem c8_sns_style_witness :
    (∀ l : Lib, sampleEnv.available l = true) ∧
    (runScript sampleEnv).1.snsSettings =
      some { style := "whitegrid", palette := "muted", colorCodes := true } :=
  ⟨fun _ => rfl, c8_sns_style sampleEnv (fun _ => rfl)⟩

/-- C9: the script contains exactly one assignment statement; it assigns
42 to RANDOM_STATE; and no statement of the script ever reads the name
RANDOM_STATE, so the constant is unused locally. -/
theorem c9_random_state_unused :
    (script.filter (fun s => (assignOf s).isSome)).length = 1 ∧
    Stmt.assign "RANDOM_STATE" 42 ∈ script ∧
    ∀ s ∈ script, "RANDOM_STATE" ∉ readNames s := by
  decide

/-- C10: the filterwarnings("ignore") call is the second statement, after
only the stdlib import of the warnings module itself and before every
third-party import, and consequently no run ever displays a warning: the
trace contains no standard-error write, whatever warnings the third-party
libraries emit while being imported. -/
theorem c10_filter_precedes_imports (env : Env) (hw : env.importEmits Lib.warnings = []) :
    script.take 2 = [Stmt.importAs Lib.warnings "warnings", Stmt.filterwarningsIgnore] ∧
    (∀ s ∈ script.take 2, isThirdPartyImport s = false) ∧
    ((runScript env).1.trace).all (fun e => !isStderrEvent e) = true := by
  refine ⟨rfl, by decide, ?_⟩
  have h := runScript_trace_all env hw
  rw [List.all_eq_true] at h ⊢
  intro e he
  have := h e he
  cases e <;> simp_all [isStdoutEvent, isStderrEvent]

/-- Witness for C10 at a concrete environment. -/
theorem c10_filter_precedes_imports_witness :
    sampleEnv.importEmits Lib.warnings = [] ∧
    (script.take 2 = [Stmt.importAs Lib.warnings "warnings", Stmt.filterwarningsIgnore] ∧
      (∀ s ∈ script.take 2, isThirdPartyImport s = false) ∧
      ((runScript sampleEnv).1.trace).all (fun e => !isStderrEvent e) = true) :=
  ⟨rfl, c10_filter_precedes_imports sampleEnv rfl⟩

end TempSetup
